import Mathlib

/-!
Shallow embedding of `src/v1.py` (yohan-work/autoQA), a single-file
Playwright smoke-test harness, together with proofs of the spec claims.

The Python program is effectful: it drives a browser, writes files, and
prints to the console.  The embedding threads an explicit run state
(`RunState`) carrying the bot object (`QAAutomationBot`), an ordered trace
of completed external effects (`Effect`), and a tick counter feeding an
abstract wall clock.  Fallible browser operations (navigation, the
network-idle wait, screenshots) are resolved by an environment oracle
(`Env`): `none` means the call succeeds, `some e` means it raises a Python
exception whose message is `e`.  An effect is recorded in the trace only
when the corresponding external operation completed successfully.

User-supplied actions (Python callables taking `(page, bot)`) are modelled
by `Action`: the ordered list of page interactions and `log` calls the
callable performs, followed by an optional uncaught exception.
-/

namespace AutoQA

/-- One entry of `self.report_logs` (v1.py lines 18-22): wall-clock time of
day, a status string (the code uses "INFO", "SUCCESS", "ERROR") and a
free-text message. -/
structure LogEntry where
  time : String
  status : String
  message : String
deriving DecidableEq, Repr

/-- Structural content of the HTML document built by
`generate_html_report` (v1.py lines 28-68): title, the two summary fields,
and one table row per log entry, in order.  The surrounding fixed
HTML/CSS markup carries no data and is not modelled. -/
structure ReportDoc where
  title : String
  summaryTimestamp : String
  summaryResultDir : String
  rows : List LogEntry
deriving DecidableEq, Repr

/-- Browser-page operations available to the orchestrator and to actions
through the `page` handle. -/
inductive PageOp where
  | goto (url : String)
  | waitForLoadState (state : String)
  | screenshot (path : String)
  | setViewportSize (width height : Nat)
  | mouseWheel (dx dy : Int)
  | waitForTimeout (ms : Nat)
  | evaluate (script : String)
  | fill (selector text : String)
  | hover
deriving DecidableEq, Repr

/-- Externally observable effects of a run, in order of completion. -/
inductive Effect where
  | launch
  | newContext
  | newPage
  | page (op : PageOp)
  | consoleLine (line : String)
  | contextClose
  | browserClose
  | writeReport (path : String) (doc : ReportDoc)
deriving DecidableEq, Repr

/-- One step performed by a user-supplied action callable: either a call
back into `bot.log` or a page interaction.  Actions hold only the `page`
handle and the logging capability, so they cannot close the context or the
browser and cannot write the report. -/
inductive ActionStep where
  | log (message status : String)
  | page (op : PageOp)
deriving DecidableEq, Repr

/-- A user-supplied action callable, abstracted to the interaction it
performs on a given run: the steps it completes in order, then optionally
an uncaught exception (message `e`) that propagates out of the callable. -/
structure Action where
  steps : List ActionStep
  raises : Option String
deriving DecidableEq, Repr

/-- The `QAAutomationBot` object state (v1.py lines 6-14). -/
structure QAAutomationBot where
  output_dir : String
  timestamp : String
  result_dir : String
  video_dir : String
  report_logs : List LogEntry
deriving DecidableEq, Repr

/-- `QAAutomationBot.__init__` (v1.py lines 6-14): the timestamp is taken
from the wall clock at construction, so it is a parameter here;
`os.path.join` is modelled as "/"-separated concatenation.  Directory
creation (`os.makedirs`) has no observable state in the model. -/
def QAAutomationBot.init (output_dir timestamp : String) : QAAutomationBot :=
  { output_dir := output_dir
    timestamp := timestamp
    result_dir := output_dir ++ "/" ++ timestamp
    video_dir := output_dir ++ "/" ++ timestamp ++ "/videos"
    report_logs := [] }

/-- State threaded through one call into the harness: the bot object, the
trace of completed external effects, and the tick counter feeding the
abstract wall clock. -/
structure RunState where
  bot : QAAutomationBot
  trace : List Effect
  tick : Nat
deriving DecidableEq, Repr

/-- Environment oracle for one run: the abstract wall clock, and for each
fallible browser call of `run_test` whether it succeeds (`none`) or raises
an exception with the given message (`some e`). -/
structure Env where
  clock : Nat → String
  gotoErr : Option String
  waitErr : Option String
  finalScreenshotErr : Option String
  errorScreenshotErr : Option String

/-- `QAAutomationBot.log` (v1.py lines 16-24): appends an entry carrying
the current wall-clock time, the status and the message to
`self.report_logs`, and prints a `[status] message` line. -/
def QAAutomationBot.log (env : Env) (s : RunState) (message status : String) : RunState :=
  { bot := { s.bot with report_logs :=
        s.bot.report_logs ++ [{ time := env.clock s.tick, status := status, message := message }] }
    trace := s.trace ++ [Effect.consoleLine ("[" ++ status ++ "] " ++ message)]
    tick := s.tick + 1 }

/-- `QAAutomationBot.generate_html_report` (v1.py lines 26-73): renders the
accumulated log into one document and writes it to
`result_dir/report.html`. -/
def QAAutomationBot.generate_html_report (s : RunState) : RunState :=
  { s with trace := s.trace ++
      [Effect.writeReport (s.bot.result_dir ++ "/report.html")
        { title := "QA 자동화 보고서 - " ++ s.bot.timestamp
          summaryTimestamp := s.bot.timestamp
          summaryResultDir := s.bot.result_dir
          rows := s.bot.report_logs }] }

/-- Replays the steps of one action callable against the run state. -/
def applySteps (env : Env) : List ActionStep → RunState → RunState
  | [], s => s
  | ActionStep.log m st :: rest, s => applySteps env rest (QAAutomationBot.log env s m st)
  | ActionStep.page op :: rest, s =>
      applySteps env rest { s with trace := s.trace ++ [Effect.page op] }

/-- The `for action in actions` loop of `run_test` (v1.py lines 103-104):
actions run strictly in order; the first uncaught exception aborts the
rest of the loop and propagates. -/
def runActions (env : Env) : List Action → RunState → RunState × Option String
  | [], s => (s, none)
  | a :: rest, s =>
      let s' := applySteps env a.steps s
      match a.raises with
      | some e => (s', some e)
      | none => runActions env rest s'

/-- Browser acquisition before the `try` block (v1.py lines 81-92):
`p.chromium.launch`, `browser.new_context(record_video_dir=..., ...)`,
`context.new_page()`. -/
def launchState (s : RunState) : RunState :=
  { s with trace := s.trace ++ [Effect.launch, Effect.newContext, Effect.newPage] }

/-- Start log, navigation and quiescence wait (v1.py lines 95-100):
either of `page.goto` and `page.wait_for_load_state("networkidle")` may
raise, in which case the SUCCESS entry is not logged. -/
def run_test_nav (env : Env) (target_url : String) (s : RunState) : RunState × Option String :=
  let s1 := QAAutomationBot.log env s ("테스트 시작: " ++ target_url) "INFO"
  match env.gotoErr with
  | some e => (s1, some e)
  | none =>
    let s2 := { s1 with trace := s1.trace ++ [Effect.page (PageOp.goto target_url)] }
    match env.waitErr with
    | some e => (s2, some e)
    | none =>
      let s3 := { s2 with trace :=
          s2.trace ++ [Effect.page (PageOp.waitForLoadState "networkidle")] }
      (QAAutomationBot.log env s3 "페이지 접속 및 로딩 완료" "SUCCESS", none)

/-- Final screenshot and its SUCCESS log entry (v1.py lines 107-109). -/
def run_test_shot (env : Env) (s : RunState) : RunState × Option String :=
  match env.finalScreenshotErr with
  | some e => (s, some e)
  | none =>
    let path := s.bot.result_dir ++ "/final_screenshot.png"
    let s' := { s with trace := s.trace ++ [Effect.page (PageOp.screenshot path)] }
    (QAAutomationBot.log env s' ("최종 스크린샷 저장: " ++ path) "SUCCESS", none)

/-- The body of the `try` block of `run_test` (v1.py lines 94-109). -/
def run_test_try (env : Env) (target_url : String) (actions : List Action)
    (s : RunState) : RunState × Option String :=
  match run_test_nav env target_url s with
  | (s', some e) => (s', some e)
  | (s', none) =>
    match runActions env actions s' with
    | (s'', some e) => (s'', some e)
    | (s'', none) => run_test_shot env s''

/-- The `except Exception as e` handler (v1.py lines 111-114): logs the
ERROR entry, then attempts the error screenshot.  The screenshot call is
unguarded, so when it itself raises, that new exception propagates out of
the handler (the `finally` block still runs first). -/
def run_test_handle (env : Env) : RunState × Option String → RunState × Option String
  | (s, none) => (s, none)
  | (s, some e) =>
    let sE := QAAutomationBot.log env s ("에러 발생: " ++ e) "ERROR"
    match env.errorScreenshotErr with
    | some e2 => (sE, some e2)
    | none =>
      ({ sE with trace := sE.trace ++
          [Effect.page (PageOp.screenshot (sE.bot.result_dir ++ "/error_screenshot.png"))] }, none)

/-- The `finally` block (v1.py lines 116-120): close the context, close
the browser, generate the report — then any pending exception resumes
propagating. -/
def run_test_finalize : RunState × Option String → RunState × Option String
  | (s, err) =>
    (QAAutomationBot.generate_html_report
      { s with trace := s.trace ++ [Effect.contextClose, Effect.browserClose] }, err)

/-- `QAAutomationBot.run_test` (v1.py lines 75-120).  The second component
of the result is the exception, if any, that escapes to the caller of
`run_test`. -/
def QAAutomationBot.run_test (env : Env) (target_url : String) (actions : List Action)
    (s : RunState) : RunState × Option String :=
  run_test_finalize (run_test_handle env (run_test_try env target_url actions (launchState s)))

/-- Fixed size list of `action_resize_test` (v1.py line 129). -/
def action_resize_test_sizes : List (Nat × Nat) := [(1920, 1080), (768, 1024), (375, 812)]

/-- Loop body of `action_resize_test` (v1.py lines 131-134): for each
pair, set the viewport, log one INFO entry, pause one second. -/
def resizeSteps : List (Nat × Nat) → List ActionStep
  | [] => []
  | (w, h) :: rest =>
      ActionStep.page (PageOp.setViewportSize w h) ::
      ActionStep.log ("해상도 변경: " ++ toString w ++ "x" ++ toString h) "INFO" ::
      ActionStep.page (PageOp.waitForTimeout 1000) ::
      resizeSteps rest

/-- `action_resize_test` generalized over the swept size list
(v1.py lines 126-137): start log, the sweep, then restore the fixed
default viewport 1280x720. -/
def action_resize_test_with (sizes : List (Nat × Nat)) : Action :=
  { steps := ActionStep.log "화면 리사이즈 테스트 시작..." "INFO" ::
      (resizeSteps sizes ++ [ActionStep.page (PageOp.setViewportSize 1280 720)])
    raises := none }

/-- `action_resize_test` (v1.py lines 126-137) with its fixed size list. -/
def action_resize_test : Action := action_resize_test_with action_resize_test_sizes

/-- Wheel loop of `action_scroll_test` (v1.py lines 143-145). -/
def scrollWheelSteps : Nat → List ActionStep
  | 0 => []
  | n + 1 =>
      ActionStep.page (PageOp.mouseWheel 0 500) ::
      ActionStep.page (PageOp.waitForTimeout 500) ::
      scrollWheelSteps n

/-- `action_scroll_test` (v1.py lines 139-150). -/
def action_scroll_test : Action :=
  { steps := ActionStep.log "스크롤 테스트 시작..." "INFO" ::
      (scrollWheelSteps 5 ++
        [ActionStep.log "페이지 하단 도달 시도" "INFO",
         ActionStep.page (PageOp.evaluate "window.scrollTo(0, 0)"),
         ActionStep.log "스크롤 테스트 완료" "SUCCESS"])
    raises := none }

/-- Page-state oracle for `action_type_search`: the result of the
`page.is_visible(target_selector)` call (which may itself raise), and
whether the `page.fill` call raises. -/
structure TypeSearchEnv where
  visible : Except String Bool
  fillErr : Option String
deriving Repr

/-- Fixed selector of `action_type_search` (v1.py line 158). -/
def target_selector : String := "input[type='text'], input[type='search'], textarea"

/-- The body of the `try` block of `action_type_search`
(v1.py lines 161-167): the steps completed, and the exception, if any,
reaching the `except` clause. -/
def action_type_search_body (env : TypeSearchEnv) : List ActionStep × Option String :=
  match env.visible with
  | Except.error e => ([], some e)
  | Except.ok false =>
      ([ActionStep.log "입력 가능한 필드를 찾지 못했습니다 (Skip)" "INFO"], none)
  | Except.ok true =>
    let found := ActionStep.log ("입력 필드 발견 (" ++ target_selector ++ "), 타이핑 시도...") "INFO"
    match env.fillErr with
    | some e => ([found], some e)
    | none =>
        ([found,
          ActionStep.page (PageOp.fill target_selector "자동화 테스트 중입니다."),
          ActionStep.page (PageOp.waitForTimeout 1000),
          ActionStep.log "타이핑 완료" "SUCCESS"], none)

/-- `action_type_search` (v1.py lines 152-169): the whole body is wrapped
in `try/except Exception`, whose handler logs one INFO entry; the action
itself never raises. -/
def action_type_search (env : TypeSearchEnv) : Action :=
  match action_type_search_body env with
  | (steps, none) => { steps := steps, raises := none }
  | (steps, some _) =>
      { steps := steps ++ [ActionStep.log "타이핑 요소 찾기 실패" "INFO"], raises := none }

/-- Page-state oracle for `action_click_buttons`: visibility of each
element matched by the button selector, in locator order. -/
structure ClickButtonsEnv where
  buttons : List Bool
deriving Repr

/-- `action_click_buttons` (v1.py lines 171-189): logs the start entry;
if the locator matched nothing, logs the "none found" INFO entry;
otherwise logs the count and, only when the first element is visible,
hovers it and logs SUCCESS.  An invisible first element ends the action
after the count entry. -/
def action_click_buttons (env : ClickButtonsEnv) : Action :=
  let start := ActionStep.log "버튼 클릭 테스트 시작..." "INFO"
  match env.buttons with
  | [] =>
      { steps := [start, ActionStep.log "클릭할 버튼을 찾지 못했습니다." "INFO"], raises := none }
  | visible :: rest =>
    let count := ActionStep.log ("발견된 버튼 수: " ++ toString (rest.length + 1) ++ "개") "INFO"
    if visible then
      { steps := [start, count, ActionStep.page PageOp.hover,
                  ActionStep.log "첫 번째 버튼 호버링 성공" "SUCCESS"]
        raises := none }
    else
      { steps := [start, count], raises := none }

/-- Effects that the try/except stages of a run may record: everything
except the three finalization effects. -/
def benignE : Effect → Bool
  | Effect.contextClose => false
  | Effect.browserClose => false
  | Effect.writeReport _ _ => false
  | _ => true

/-- Recognizes a context-close effect. -/
def isContextCloseE : Effect → Bool
  | Effect.contextClose => true
  | _ => false

/-- Recognizes a browser-close effect. -/
def isBrowserCloseE : Effect → Bool
  | Effect.browserClose => true
  | _ => false

/-- Recognizes a report-write effect. -/
def isWriteReportE : Effect → Bool
  | Effect.writeReport _ _ => true
  | _ => false

/-- Paths of all screenshot files written during a trace. -/
def screenshotsOf (t : List Effect) : List String :=
  t.filterMap fun e => match e with
    | Effect.page (PageOp.screenshot p) => some p
    | _ => none

/-- All report documents written during a trace, with their paths. -/
def reportsOf (t : List Effect) : List (String × ReportDoc) :=
  t.filterMap fun e => match e with
    | Effect.writeReport p d => some (p, d)
    | _ => none

/-- Viewport sizes applied by a list of action steps, in order. -/
def viewportOpsOf (steps : List ActionStep) : List (Nat × Nat) :=
  steps.filterMap fun st => match st with
    | ActionStep.page (PageOp.setViewportSize w h) => some (w, h)
    | _ => none

/-- The (message, status) pairs of the log calls in a list of action
steps, in order. -/
def logStepsOf (steps : List ActionStep) : List (String × String) :=
  steps.filterMap fun st => match st with
    | ActionStep.log m s => some (m, s)
    | _ => none

/-- `s'` extends `s`: the bot is unchanged except that log entries were
appended, and only benign (non-finalization) effects were appended to the
trace. -/
def Extends (s s' : RunState) : Prop :=
  ∃ dl dt, s'.bot = { s.bot with report_logs := s.bot.report_logs ++ dl }
    ∧ s'.trace = s.trace ++ dt ∧ dt.all benignE = true

theorem extends_refl (s : RunState) : Extends s s :=
  ⟨[], [], by simp, by simp, rfl⟩

theorem extends_trans {s₁ s₂ s₃ : RunState} (h : Extends s₁ s₂) (h' : Extends s₂ s₃) :
    Extends s₁ s₃ := by
  obtain ⟨dl, dt, hb, ht, ha⟩ := h
  obtain ⟨dl', dt', hb', ht', ha'⟩ := h'
  refine ⟨dl ++ dl', dt ++ dt', ?_, ?_, ?_⟩
  · rw [hb', hb]; simp
  · rw [ht', ht]; simp
  · simp [List.all_append, ha, ha']

theorem extends_log (env : Env) (s : RunState) (m st : String) :
    Extends s (QAAutomationBot.log env s m st) :=
  ⟨[{ time := env.clock s.tick, status := st, message := m }],
   [Effect.consoleLine ("[" ++ st ++ "] " ++ m)], rfl, rfl, rfl⟩

theorem extends_page (s : RunState) (op : PageOp) :
    Extends s { s with trace := s.trace ++ [Effect.page op] } :=
  ⟨[], [Effect.page op], by simp, rfl, rfl⟩

theorem applySteps_extends (env : Env) (steps : List ActionStep) :
    ∀ s : RunState, Extends s (applySteps env steps s) := by
  induction steps with
  | nil => intro s; exact extends_refl s
  | cons st rest ih =>
    intro s
    cases st with
    | log m stat => exact extends_trans (extends_log env s m stat) (ih _)
    | page op => exact extends_trans (extends_page s op) (ih _)

theorem runActions_extends (env : Env) (actions : List Action) :
    ∀ s : RunState, Extends s (runActions env actions s).1 := by
  induction actions with
  | nil => intro s; exact extends_refl s
  | cons a rest ih =>
    intro s
    show Extends s (runActions env (a :: rest) s).1
    rw [runActions]
    cases h : a.raises with
    | some e => simpa [h] using applySteps_extends env a.steps s
    | none =>
      simp only [h]
      exact extends_trans (applySteps_extends env a.steps s) (ih _)

theorem run_test_nav_extends (env : Env) (url : String) (s : RunState) :
    Extends s (run_test_nav env url s).1 := by
  rw [run_test_nav]
  cases env.gotoErr with
  | some e => simpa using extends_log env s ("테스트 시작: " ++ url) "INFO"
  | none =>
    cases env.waitErr with
    | some e =>
      refine extends_trans (extends_log env s ("테스트 시작: " ++ url) "INFO") ?_
      simpa using extends_page _ (PageOp.goto url)
    | none =>
      refine extends_trans (extends_log env s ("테스트 시작: " ++ url) "INFO") ?_
      refine extends_trans (extends_page _ (PageOp.goto url)) ?_
      refine extends_trans (extends_page _ (PageOp.waitForLoadState "networkidle")) ?_
      simpa using extends_log env _ "페이지 접속 및 로딩 완료" "SUCCESS"

theorem run_test_shot_extends (env : Env) (s : RunState) :
    Extends s (run_test_shot env s).1 := by
  rw [run_test_shot]
  cases env.finalScreenshotErr with
  | some e => exact extends_refl s
  | none =>
    refine extends_trans (extends_page s (PageOp.screenshot (s.bot.result_dir ++ "/final_screenshot.png"))) ?_
    simpa using extends_log env _ ("최종 스크린샷 저장: " ++ (s.bot.result_dir ++ "/final_screenshot.png")) "SUCCESS"

theorem run_test_try_extends (env : Env) (url : String) (actions : List Action)
    (s : RunState) : Extends s (run_test_try env url actions s).1 := by
  rw [run_test_try]
  split
  next sN e heq =>
    have h1 := run_test_nav_extends env url s
    rw [heq] at h1; exact h1
  next sN heq =>
    have h1 := run_test_nav_extends env url s
    rw [heq] at h1
    split
    next sA e heq2 =>
      have h2 := runActions_extends env actions sN
      rw [heq2] at h2
      exact extends_trans h1 h2
    next sA heq2 =>
      have h2 := runActions_extends env actions sN
      rw [heq2] at h2
      exact extends_trans h1 (extends_trans h2 (run_test_shot_extends env sA))

theorem run_test_handle_extends (env : Env) (r : RunState × Option String) :
    Extends r.1 (run_test_handle env r).1 := by
  cases r with
  | mk s err =>
    cases err with
    | none => exact extends_refl s
    | some e =>
      rw [run_test_handle]
      cases env.errorScreenshotErr with
      | some e2 => simpa using extends_log env s ("에러 발생: " ++ e) "ERROR"
      | none =>
        refine extends_trans (extends_log env s ("에러 발생: " ++ e) "ERROR") ?_
        simpa using extends_page _ (PageOp.screenshot _)

theorem launchState_extends (s : RunState) : Extends s (launchState s) :=
  ⟨[], [Effect.launch, Effect.newContext, Effect.newPage], by simp [launchState], rfl, rfl⟩

theorem run_test_finalize_fst (r : RunState × Option String) :
    (run_test_finalize r).1 = QAAutomationBot.generate_html_report
      { r.1 with trace := r.1.trace ++ [Effect.contextClose, Effect.browserClose] } := by
  cases r; rfl

theorem run_test_finalize_snd (r : RunState × Option String) :
    (run_test_finalize r).2 = r.2 := by
  cases r; rfl

/-- Global shape of one `run_test` call: the bot only gains appended log
entries, and the trace gains some benign effects followed by exactly the
three finalization effects, the report document holding one row per final
log entry in order. -/
theorem run_test_shape (env : Env) (url : String) (actions : List Action) (s : RunState) :
    ∃ dl dt, dt.all benignE = true ∧
      (QAAutomationBot.run_test env url actions s).1.bot
        = { s.bot with report_logs := s.bot.report_logs ++ dl } ∧
      (QAAutomationBot.run_test env url actions s).1.trace
        = s.trace ++ (dt ++ [Effect.contextClose, Effect.browserClose,
            Effect.writeReport (s.bot.result_dir ++ "/report.html")
              { title := "QA 자동화 보고서 - " ++ s.bot.timestamp
                summaryTimestamp := s.bot.timestamp
                summaryResultDir := s.bot.result_dir
                rows := s.bot.report_logs ++ dl }]) := by
  obtain ⟨dl, dt, hb, ht, ha⟩ :=
    extends_trans (launchState_extends s)
      (extends_trans (run_test_try_extends env url actions (launchState s))
        (run_test_handle_extends env (run_test_try env url actions (launchState s))))
  refine ⟨dl, dt, ha, ?_, ?_⟩
  · rw [QAAutomationBot.run_test, run_test_finalize_fst, QAAutomationBot.generate_html_report]
    simpa using hb
  · rw [QAAutomationBot.run_test, run_test_finalize_fst, QAAutomationBot.generate_html_report]
    simp [hb, ht]

theorem benign_countP {dt : List Effect} (h : dt.all benignE = true) :
    dt.countP isContextCloseE = 0 ∧ dt.countP isBrowserCloseE = 0
      ∧ dt.countP isWriteReportE = 0 := by
  refine ⟨?_, ?_, ?_⟩ <;>
  · rw [List.countP_eq_zero]
    intro a ha
    have hben := List.all_eq_true.mp h a ha
    cases a <;> simp_all [benignE, isContextCloseE, isBrowserCloseE, isWriteReportE]

/-- C2: for every run of `run_test`, regardless of which prior step
raised, the finalization steps — closing the context, closing the
browser, and writing exactly one `report.html` — each execute exactly
once, at the very end, on every exit path. -/
theorem run_test_finalizes_exactly_once (env : Env) (url : String) (actions : List Action)
    (bot : QAAutomationBot) :
    ∃ t₀ doc,
      (QAAutomationBot.run_test env url actions ⟨bot, [], 0⟩).1.trace
        = t₀ ++ [Effect.contextClose, Effect.browserClose,
            Effect.writeReport (bot.result_dir ++ "/report.html") doc]
      ∧ t₀.countP isContextCloseE = 0 ∧ t₀.countP isBrowserCloseE = 0
      ∧ t₀.countP isWriteReportE = 0 := by
  obtain ⟨dl, dt, ha, hb, ht⟩ := run_test_shape env url actions ⟨bot, [], 0⟩
  obtain ⟨h1, h2, h3⟩ := benign_countP ha
  exact ⟨dt, _, by simpa using ht, h1, h2, h3⟩

/-- C3: the log is append-only during a run, and the single generated
report — written exactly once, at the very end, on both the success and
the failure path — contains exactly one row per log entry, in exact
append order, with the exact status and message recorded by each `log()`
call. -/
theorem run_test_report_rows_are_log (env : Env) (url : String) (actions : List Action)
    (s : RunState) :
    ∃ dl t₀,
      (QAAutomationBot.run_test env url actions s).1.bot.report_logs
        = s.bot.report_logs ++ dl
      ∧ (QAAutomationBot.run_test env url actions s).1.trace
        = s.trace ++ (t₀ ++ [Effect.contextClose, Effect.browserClose,
            Effect.writeReport (s.bot.result_dir ++ "/report.html")
              { title := "QA 자동화 보고서 - " ++ s.bot.timestamp
                summaryTimestamp := s.bot.timestamp
                summaryResultDir := s.bot.result_dir
                rows := s.bot.report_logs ++ dl }])
      ∧ t₀.countP isWriteReportE = 0 := by
  obtain ⟨dl, dt, ha, hb, ht⟩ := run_test_shape env url actions s
  exact ⟨dl, dt, by simp [hb], ht, (benign_countP ha).2.2⟩

theorem reportsOf_benign {dt : List Effect} (h : dt.all benignE = true) :
    reportsOf dt = [] := by
  rw [reportsOf, List.filterMap_eq_nil_iff]
  intro a ha
  have hben := List.all_eq_true.mp h a ha
  cases a <;> simp_all [benignE]

/-- Environment where navigation fails and the best-effort error
screenshot itself fails. -/
def envErrorShotFails : Env :=
  { clock := fun _ => "00:00:00"
    gotoErr := some "net::ERR_NAME_NOT_RESOLVED"
    waitErr := none
    finalScreenshotErr := none
    errorScreenshotErr := some "Target page, context or browser has been closed" }

/-- C1 counterexample: when navigation raises and the best-effort error
screenshot on the failure path also raises, `run_test` re-raises the
screenshot's exception to its own caller, so the claim that no exception
is ever re-raised is false at this input. -/
theorem run_test_reraises_counterexample :
    (QAAutomationBot.run_test envErrorShotFails "http://example.com" []
        ⟨QAAutomationBot.init "qa_results" "20240101_000000", [], 0⟩).2
      = some "Target page, context or browser has been closed" := by
  rfl

/-- C1 (amended): exceptions raised by navigation, the quiescence wait,
or any action are absorbed into the ERROR log entry and never re-raised
to the caller of `run_test`, provided the best-effort error screenshot
itself does not raise; a failure of that screenshot is the one exception
that propagates to the caller. -/
theorem run_test_absorbs_when_error_shot_ok (env : Env) (url : String)
    (actions : List Action) (s : RunState) (h : env.errorScreenshotErr = none) :
    (QAAutomationBot.run_test env url actions s).2 = none := by
  rw [QAAutomationBot.run_test, run_test_finalize_snd]
  cases hr : run_test_try env url actions (launchState s) with
  | mk sT err =>
    cases err with
    | none => rfl
    | some e => simp [run_test_handle, h]

/-- Environment where navigation fails but every screenshot succeeds. -/
def envNavFails : Env :=
  { clock := fun _ => "00:00:00"
    gotoErr := some "net::ERR_CONNECTION_REFUSED"
    waitErr := none
    finalScreenshotErr := none
    errorScreenshotErr := none }

theorem run_test_absorbs_when_error_shot_ok_witness :
    envNavFails.errorScreenshotErr = none ∧
      (QAAutomationBot.run_test envNavFails "http://unreachable.example" []
          ⟨QAAutomationBot.init "qa_results" "20240101_000000", [], 0⟩).2 = none :=
  ⟨rfl, run_test_absorbs_when_error_shot_ok envNavFails "http://unreachable.example" []
    ⟨QAAutomationBot.init "qa_results" "20240101_000000", [], 0⟩ rfl⟩

/-- C10: on the failure path, taking the error screenshot appends no log
entry: when the error screenshot succeeds, the ERROR entry recording the
exception is the last entry of the log, and the single generated report's
rows are exactly that final log, so its last row is the ERROR row. -/
theorem run_test_error_entry_is_last (env : Env) (url : String) (actions : List Action)
    (bot : QAAutomationBot) (e : String)
    (hshot : env.errorScreenshotErr = none)
    (htry : (run_test_try env url actions (launchState ⟨bot, [], 0⟩)).2 = some e) :
    (QAAutomationBot.run_test env url actions ⟨bot, [], 0⟩).1.bot.report_logs
      = (run_test_try env url actions (launchState ⟨bot, [], 0⟩)).1.bot.report_logs
        ++ [{ time := env.clock (run_test_try env url actions (launchState ⟨bot, [], 0⟩)).1.tick
              status := "ERROR", message := "에러 발생: " ++ e }]
    ∧ (reportsOf (QAAutomationBot.run_test env url actions ⟨bot, [], 0⟩).1.trace).map
          (fun pd => pd.2.rows)
        = [(QAAutomationBot.run_test env url actions ⟨bot, [], 0⟩).1.bot.report_logs] := by
  obtain ⟨dl, dt, hb, ht, ha⟩ :=
    extends_trans (launchState_extends ⟨bot, [], 0⟩)
      (run_test_try_extends env url actions (launchState ⟨bot, [], 0⟩))
  rw [QAAutomationBot.run_test]
  cases hTT : run_test_try env url actions (launchState ⟨bot, [], 0⟩) with
  | mk sT errT =>
    rw [hTT] at htry ht hb
    simp only at htry ht hb
    subst htry
    constructor
    · simp [run_test_handle, hshot, run_test_finalize, QAAutomationBot.generate_html_report,
        QAAutomationBot.log]
    · simp only [run_test_handle, hshot, run_test_finalize,
        QAAutomationBot.generate_html_report, QAAutomationBot.log]
      simp [reportsOf, List.filterMap_append, ht]
      intro a hadt
      have hben := List.all_eq_true.mp ha a hadt
      cases a <;> simp_all [benignE]

/-- Environment for the C10 witness: navigation fails, the error
screenshot succeeds. -/
def envNavFailsShotOk : Env :=
  { clock := fun _ => "00:00:00"
    gotoErr := some "net::ERR_TIMED_OUT"
    waitErr := none
    finalScreenshotErr := none
    errorScreenshotErr := none }

theorem run_test_error_entry_is_last_witness :
    envNavFailsShotOk.errorScreenshotErr = none
    ∧ (run_test_try envNavFailsShotOk "http://slow.example" []
        (launchState ⟨QAAutomationBot.init "qa_results" "20240101_000000", [], 0⟩)).2
      = some "net::ERR_TIMED_OUT"
    ∧ ((QAAutomationBot.run_test envNavFailsShotOk "http://slow.example" []
          ⟨QAAutomationBot.init "qa_results" "20240101_000000", [], 0⟩).1.bot.report_logs
        = (run_test_try envNavFailsShotOk "http://slow.example" []
            (launchState ⟨QAAutomationBot.init "qa_results" "20240101_000000", [], 0⟩)).1.bot.report_logs
          ++ [{ time := envNavFailsShotOk.clock
                  (run_test_try envNavFailsShotOk "http://slow.example" []
                    (launchState ⟨QAAutomationBot.init "qa_results" "20240101_000000", [], 0⟩)).1.tick
                status := "ERROR", message := "에러 발생: " ++ "net::ERR_TIMED_OUT" }]
      ∧ (reportsOf (QAAutomationBot.run_test envNavFailsShotOk "http://slow.example" []
            ⟨QAAutomationBot.init "qa_results" "20240101_000000", [], 0⟩).1.trace).map
            (fun pd => pd.2.rows)
          = [(QAAutomationBot.run_test envNavFailsShotOk "http://slow.example" []
              ⟨QAAutomationBot.init "qa_results" "20240101_000000", [], 0⟩).1.bot.report_logs]) :=
  ⟨rfl, rfl,
    run_test_error_entry_is_last envNavFailsShotOk "http://slow.example" []
      (QAAutomationBot.init "qa_results" "20240101_000000") "net::ERR_TIMED_OUT" rfl rfl⟩

theorem runActions_cut (env : Env) (a : Action) (e : String) (ha : a.raises = some e)
    (post : List Action) :
    ∀ pre : List Action, (∀ b ∈ pre, b.raises = none) →
      ∀ s, runActions env (pre ++ a :: post) s = runActions env (pre ++ [a]) s := by
  intro pre
  induction pre with
  | nil =>
    intro _ s
    simp [runActions, ha]
  | cons b rest ih =>
    intro h s
    have hb : b.raises = none := h b (List.mem_cons_self b rest)
    simp only [List.cons_append, runActions, hb]
    exact ih (fun x hx => h x (List.mem_cons_of_mem b hx)) _

theorem runActions_none (env : Env) :
    ∀ l : List Action, (∀ b ∈ l, b.raises = none) →
      ∀ s, (runActions env l s).2 = none := by
  intro l
  induction l with
  | nil => intro _ s; rfl
  | cons b rest ih =>
    intro h s
    have hb : b.raises = none := h b (List.mem_cons_self b rest)
    simp only [runActions, hb]
    exact ih (fun x hx => h x (List.mem_cons_of_mem b hx)) _

theorem runActions_snoc_ok (env : Env) (a : Action) :
    ∀ pre : List Action, (∀ b ∈ pre, b.raises = none) →
      ∀ s, runActions env (pre ++ [a]) s
        = (applySteps env a.steps (runActions env pre s).1, a.raises) := by
  intro pre
  induction pre with
  | nil =>
    intro _ s
    cases h : a.raises <;> simp [runActions, h]
  | cons b rest ih =>
    intro h s
    have hb : b.raises = none := h b (List.mem_cons_self b rest)
    simp only [List.cons_append, runActions, hb]
    exact ih (fun x hx => h x (List.mem_cons_of_mem b hx)) _

theorem run_test_try_congr (env : Env) (url : String) {A B : List Action}
    (h : ∀ x, runActions env A x = runActions env B x) (s : RunState) :
    run_test_try env url A s = run_test_try env url B s := by
  rw [run_test_try, run_test_try]
  split
  next sN e heq => rfl
  next sN heq => rw [h sN]

/-- C4: if action `i` raises, actions `i+1 .. N-1` are never invoked (the
run is literally equal to the run whose scenario stops at the failing
action), and every log entry appended by actions `0 .. i-1` remains
present and unmodified — a prefix of the final log, which the single
report renders in full. -/
theorem run_test_failing_action_cuts_rest (env : Env) (url : String)
    (pre post : List Action) (a : Action) (e : String) (s : RunState)
    (hg : env.gotoErr = none) (hw : env.waitErr = none)
    (hpre : ∀ b ∈ pre, b.raises = none) (ha : a.raises = some e) :
    QAAutomationBot.run_test env url (pre ++ a :: post) s
      = QAAutomationBot.run_test env url (pre ++ [a]) s
    ∧ ∃ s₁ d, runActions env pre (run_test_nav env url (launchState s)).1 = (s₁, none)
        ∧ (QAAutomationBot.run_test env url (pre ++ a :: post) s).1.bot.report_logs
            = s₁.bot.report_logs ++ d := by
  have hcut := runActions_cut env a e ha post pre hpre
  have htryC : run_test_try env url (pre ++ a :: post) (launchState s)
      = run_test_try env url (pre ++ [a]) (launchState s) :=
    run_test_try_congr env url hcut (launchState s)
  have hrunC : QAAutomationBot.run_test env url (pre ++ a :: post) s
      = QAAutomationBot.run_test env url (pre ++ [a]) s := by
    rw [QAAutomationBot.run_test, QAAutomationBot.run_test, htryC]
  refine ⟨hrunC, ?_⟩
  rw [hrunC]
  have hnav2 : (run_test_nav env url (launchState s)).2 = none := by
    simp [run_test_nav, hg, hw]
  cases hn : run_test_nav env url (launchState s) with
  | mk sN errN =>
    rw [hn] at hnav2
    simp only at hnav2
    subst hnav2
    have hA : runActions env (pre ++ [a]) sN
        = (applySteps env a.steps (runActions env pre sN).1, some e) := by
      rw [runActions_snoc_ok env a pre hpre sN, ha]
    have htryV : run_test_try env url (pre ++ [a]) (launchState s)
        = (applySteps env a.steps (runActions env pre sN).1, some e) := by
      rw [run_test_try, hn]
      simp only [hA]
    have hp2 := runActions_none env pre hpre sN
    obtain ⟨dla, dta, hba, hta, _⟩ := applySteps_extends env a.steps (runActions env pre sN).1
    refine ⟨(runActions env pre sN).1, dla ++
      [{ time := env.clock (applySteps env a.steps (runActions env pre sN).1).tick
         status := "ERROR", message := "에러 발생: " ++ e }], ?_, ?_⟩
    · rw [← hp2]
    · rw [QAAutomationBot.run_test, htryV]
      cases hes : env.errorScreenshotErr <;>
        simp [run_test_handle, hes, run_test_finalize, QAAutomationBot.generate_html_report,
          QAAutomationBot.log, hba]

/-- Environment where every browser operation succeeds. -/
def envAllOk : Env :=
  { clock := fun _ => "00:00:00"
    gotoErr := none
    waitErr := none
    finalScreenshotErr := none
    errorScreenshotErr := none }

/-- A user action that logs one entry and then raises. -/
def failingAction : Action :=
  { steps := [ActionStep.log "버튼 클릭 테스트 시작..." "INFO"]
    raises := some "Timeout 30000ms exceeded." }

theorem run_test_failing_action_cuts_rest_witness :
    envAllOk.gotoErr = none ∧ envAllOk.waitErr = none
    ∧ (∀ b ∈ [action_scroll_test], b.raises = none)
    ∧ failingAction.raises = some "Timeout 30000ms exceeded."
    ∧ (QAAutomationBot.run_test envAllOk "http://example.com"
          ([action_scroll_test] ++ failingAction :: [action_scroll_test])
          ⟨QAAutomationBot.init "qa_results" "20240101_000000", [], 0⟩
        = QAAutomationBot.run_test envAllOk "http://example.com"
            ([action_scroll_test] ++ [failingAction])
            ⟨QAAutomationBot.init "qa_results" "20240101_000000", [], 0⟩
      ∧ ∃ s₁ d, runActions envAllOk [action_scroll_test]
            (run_test_nav envAllOk "http://example.com"
              (launchState ⟨QAAutomationBot.init "qa_results" "20240101_000000", [], 0⟩)).1
            = (s₁, none)
          ∧ (QAAutomationBot.run_test envAllOk "http://example.com"
                ([action_scroll_test] ++ failingAction :: [action_scroll_test])
                ⟨QAAutomationBot.init "qa_results" "20240101_000000", [], 0⟩).1.bot.report_logs
              = s₁.bot.report_logs ++ d) :=
  ⟨rfl, rfl, by decide, rfl,
    run_test_failing_action_cuts_rest envAllOk "http://example.com"
      [action_scroll_test] [action_scroll_test] failingAction "Timeout 30000ms exceeded."
      ⟨QAAutomationBot.init "qa_results" "20240101_000000", [], 0⟩
      rfl rfl (by decide) rfl⟩

/-- C5 counterexample: on a page whose only button-like element is not
visible, the action logs the start entry and the element count and then
stops: it does not hover, does not log SUCCESS, and — against the claim's
"otherwise" branch — does not log the INFO entry that none were found. -/
theorem action_click_buttons_invisible_counterexample :
    action_click_buttons { buttons := [false] }
      = { steps := [ActionStep.log "버튼 클릭 테스트 시작..." "INFO",
                    ActionStep.log "발견된 버튼 수: 1개" "INFO"]
          raises := none } := by
  rfl

/-- C5 (amended): the action hovers the first matching element and logs
SUCCESS when at least one exists and the first is visible; when no
element exists it logs the INFO entry that none were found; when elements
exist but the first is not visible it logs only the element count and
does nothing further; and it never raises — in particular not when its
target elements are absent. -/
theorem action_click_buttons_spec (rest : List Bool) (b : Bool) :
    action_click_buttons { buttons := [] }
      = { steps := [ActionStep.log "버튼 클릭 테스트 시작..." "INFO",
                    ActionStep.log "클릭할 버튼을 찾지 못했습니다." "INFO"]
          raises := none }
    ∧ action_click_buttons { buttons := true :: rest }
      = { steps := [ActionStep.log "버튼 클릭 테스트 시작..." "INFO",
                    ActionStep.log ("발견된 버튼 수: " ++ toString (rest.length + 1) ++ "개") "INFO",
                    ActionStep.page PageOp.hover,
                    ActionStep.log "첫 번째 버튼 호버링 성공" "SUCCESS"]
          raises := none }
    ∧ action_click_buttons { buttons := false :: rest }
      = { steps := [ActionStep.log "버튼 클릭 테스트 시작..." "INFO",
                    ActionStep.log ("발견된 버튼 수: " ++ toString (rest.length + 1) ++ "개") "INFO"]
          raises := none }
    ∧ (action_click_buttons { buttons := b :: rest }).raises = none := by
  refine ⟨rfl, by simp [action_click_buttons], by simp [action_click_buttons], ?_⟩
  cases b <;> simp [action_click_buttons]

/-- C6: `action_type_search` never propagates an exception: with a found
and visible field it fills it with the fixed sample string and logs
SUCCESS; when no field is found, or when the visibility lookup or the
fill raises, it logs an INFO entry (never ERROR) and returns normally. -/
theorem action_type_search_spec (e : String) (fe : Option String) :
    (∀ env : TypeSearchEnv, (action_type_search env).raises = none)
    ∧ action_type_search { visible := Except.ok true, fillErr := none }
      = { steps := [ActionStep.log ("입력 필드 발견 (" ++ target_selector ++ "), 타이핑 시도...") "INFO",
                    ActionStep.page (PageOp.fill target_selector "자동화 테스트 중입니다."),
                    ActionStep.page (PageOp.waitForTimeout 1000),
                    ActionStep.log "타이핑 완료" "SUCCESS"]
          raises := none }
    ∧ action_type_search { visible := Except.ok true, fillErr := some e }
      = { steps := [ActionStep.log ("입력 필드 발견 (" ++ target_selector ++ "), 타이핑 시도...") "INFO",
                    ActionStep.log "타이핑 요소 찾기 실패" "INFO"]
          raises := none }
    ∧ action_type_search { visible := Except.ok false, fillErr := fe }
      = { steps := [ActionStep.log "입력 가능한 필드를 찾지 못했습니다 (Skip)" "INFO"]
          raises := none }
    ∧ action_type_search { visible := Except.error e, fillErr := fe }
      = { steps := [ActionStep.log "타이핑 요소 찾기 실패" "INFO"]
          raises := none } := by
  refine ⟨?_, rfl, rfl, rfl, rfl⟩
  intro env
  rw [action_type_search]
  split <;> rfl

theorem viewportOpsOf_resizeSteps (sizes : List (Nat × Nat)) :
    viewportOpsOf (resizeSteps sizes) = sizes := by
  induction sizes with
  | nil => rfl
  | cons p rest ih =>
    obtain ⟨w, h⟩ := p
    simp only [resizeSteps, viewportOpsOf, List.filterMap_cons] at ih ⊢
    simp [ih]

theorem logStepsOf_resizeSteps (sizes : List (Nat × Nat)) :
    logStepsOf (resizeSteps sizes)
      = sizes.map (fun p => ("해상도 변경: " ++ toString p.1 ++ "x" ++ toString p.2, "INFO")) := by
  induction sizes with
  | nil => rfl
  | cons p rest ih =>
    obtain ⟨w, h⟩ := p
    simp only [resizeSteps, logStepsOf, List.filterMap_cons, List.map_cons] at ih ⊢
    simp [ih]

/-- C7: the resize sweep raises nothing, applies exactly the pairs of its
size list as viewport sizes in order, logs exactly one INFO entry per
resize (after the start entry), and its last viewport-affecting effect is
restoring the fixed default viewport 1280x720, independent of how many
sizes were swept; the shipped action uses the fixed three-element size
list. -/
theorem action_resize_test_spec (sizes : List (Nat × Nat)) :
    action_resize_test = action_resize_test_with [(1920, 1080), (768, 1024), (375, 812)]
    ∧ (action_resize_test_with sizes).raises = none
    ∧ viewportOpsOf (action_resize_test_with sizes).steps = sizes ++ [(1280, 720)]
    ∧ logStepsOf (action_resize_test_with sizes).steps
      = ("화면 리사이즈 테스트 시작...", "INFO")
        :: sizes.map (fun p => ("해상도 변경: " ++ toString p.1 ++ "x" ++ toString p.2, "INFO"))
    ∧ (viewportOpsOf (action_resize_test_with sizes).steps).getLast? = some (1280, 720) := by
  have hv : viewportOpsOf (action_resize_test_with sizes).steps = sizes ++ [(1280, 720)] := by
    simp only [action_resize_test_with, viewportOpsOf, List.filterMap_cons,
      List.filterMap_append]
    have := viewportOpsOf_resizeSteps sizes
    simp only [viewportOpsOf] at this
    simp [this]
  refine ⟨rfl, rfl, hv, ?_, ?_⟩
  · simp only [action_resize_test_with, logStepsOf, List.filterMap_cons,
      List.filterMap_append]
    have := logStepsOf_resizeSteps sizes
    simp only [logStepsOf] at this
    simp [this]
  · rw [hv, List.getLast?_concat]

/-- Environment where navigation and the load wait succeed but the final
screenshot raises (and the error screenshot succeeds). -/
def envFinalShotFails : Env :=
  { clock := fun _ => "00:00:00"
    gotoErr := none
    waitErr := none
    finalScreenshotErr := some "Timeout 30000ms exceeded."
    errorScreenshotErr := none }

/-- C8 counterexample: a zero-action run in which navigation and the load
wait succeed but the final screenshot raises yields a report whose third
row is an ERROR row, and the only screenshot file written is
`error_screenshot.png` — not `final_screenshot.png` — so the claim is
false at this input. -/
theorem run_test_empty_actions_counterexample :
    ((QAAutomationBot.run_test envFinalShotFails "http://example.com" []
        ⟨QAAutomationBot.init "qa_results" "20240101_000000", [], 0⟩).1.bot.report_logs).map
        LogEntry.status
      = ["INFO", "SUCCESS", "ERROR"]
    ∧ screenshotsOf (QAAutomationBot.run_test envFinalShotFails "http://example.com" []
        ⟨QAAutomationBot.init "qa_results" "20240101_000000", [], 0⟩).1.trace
      = ["qa_results/20240101_000000/error_screenshot.png"] := by
  refine ⟨rfl, rfl⟩

/-- C8 (amended): for a zero-action run on a fresh bot in which
navigation, the load wait and the final screenshot all succeed, the
report contains exactly the start entry, the navigation SUCCESS entry and
the final-screenshot SUCCESS entry — three rows, no ERROR rows — exactly
one screenshot file, `final_screenshot.png`, is written, and nothing is
re-raised. -/
theorem run_test_empty_actions_report (env : Env) (url out ts : String)
    (hg : env.gotoErr = none) (hw : env.waitErr = none)
    (hf : env.finalScreenshotErr = none) :
    (QAAutomationBot.run_test env url [] ⟨QAAutomationBot.init out ts, [], 0⟩).1.bot.report_logs
      = [{ time := env.clock 0, status := "INFO", message := "테스트 시작: " ++ url },
         { time := env.clock 1, status := "SUCCESS", message := "페이지 접속 및 로딩 완료" },
         { time := env.clock 2, status := "SUCCESS",
           message := "최종 스크린샷 저장: " ++ ((out ++ "/" ++ ts) ++ "/final_screenshot.png") }]
    ∧ screenshotsOf
        (QAAutomationBot.run_test env url [] ⟨QAAutomationBot.init out ts, [], 0⟩).1.trace
      = [(out ++ "/" ++ ts) ++ "/final_screenshot.png"]
    ∧ reportsOf
        (QAAutomationBot.run_test env url [] ⟨QAAutomationBot.init out ts, [], 0⟩).1.trace
      = [((out ++ "/" ++ ts) ++ "/report.html",
          { title := "QA 자동화 보고서 - " ++ ts
            summaryTimestamp := ts
            summaryResultDir := out ++ "/" ++ ts
            rows :=
              [{ time := env.clock 0, status := "INFO", message := "테스트 시작: " ++ url },
               { time := env.clock 1, status := "SUCCESS", message := "페이지 접속 및 로딩 완료" },
               { time := env.clock 2, status := "SUCCESS",
                 message := "최종 스크린샷 저장: " ++ ((out ++ "/" ++ ts) ++ "/final_screenshot.png") }] })]
    ∧ (QAAutomationBot.run_test env url [] ⟨QAAutomationBot.init out ts, [], 0⟩).2 = none := by
  refine ⟨?_, ?_, ?_, ?_⟩ <;>
    simp [QAAutomationBot.run_test, run_test_try, run_test_nav, runActions, run_test_shot,
      run_test_handle, run_test_finalize, launchState, QAAutomationBot.log,
      QAAutomationBot.generate_html_report, QAAutomationBot.init, hg, hw, hf,
      screenshotsOf, reportsOf]

theorem run_test_empty_actions_report_witness :
    envAllOk.gotoErr = none ∧ envAllOk.waitErr = none ∧ envAllOk.finalScreenshotErr = none
    ∧ (QAAutomationBot.run_test envAllOk "http://example.com" []
          ⟨QAAutomationBot.init "qa_results" "20240101_000000", [], 0⟩).1.bot.report_logs
        = [{ time := envAllOk.clock 0, status := "INFO",
             message := "테스트 시작: " ++ "http://example.com" },
           { time := envAllOk.clock 1, status := "SUCCESS", message := "페이지 접속 및 로딩 완료" },
           { time := envAllOk.clock 2, status := "SUCCESS",
             message := "최종 스크린샷 저장: "
               ++ (("qa_results" ++ "/" ++ "20240101_000000") ++ "/final_screenshot.png") }] :=
  ⟨rfl, rfl, rfl,
    (run_test_empty_actions_report envAllOk "http://example.com" "qa_results" "20240101_000000"
      rfl rfl rfl).1⟩

/-- C9: `report_logs` is never cleared: a second `run_test` on the same
bot instance appends to the first run's entries, the second report's rows
contain every entry of both runs in order, and both runs write their
report into the same result directory fixed at construction. -/
theorem run_test_accumulates_across_runs (env₁ env₂ : Env) (url₁ url₂ : String)
    (acts₁ acts₂ : List Action) (bot : QAAutomationBot) :
    ∃ d₁ d₂ t₁ t₂,
      (QAAutomationBot.run_test env₁ url₁ acts₁ ⟨bot, [], 0⟩).1.bot
        = { bot with report_logs := bot.report_logs ++ d₁ }
      ∧ (QAAutomationBot.run_test env₁ url₁ acts₁ ⟨bot, [], 0⟩).1.trace
        = t₁ ++ [Effect.contextClose, Effect.browserClose,
            Effect.writeReport (bot.result_dir ++ "/report.html")
              { title := "QA 자동화 보고서 - " ++ bot.timestamp
                summaryTimestamp := bot.timestamp
                summaryResultDir := bot.result_dir
                rows := bot.report_logs ++ d₁ }]
      ∧ (QAAutomationBot.run_test env₂ url₂ acts₂
            ⟨(QAAutomationBot.run_test env₁ url₁ acts₁ ⟨bot, [], 0⟩).1.bot, [], 0⟩).1.bot
        = { bot with report_logs := (bot.report_logs ++ d₁) ++ d₂ }
      ∧ (QAAutomationBot.run_test env₂ url₂ acts₂
            ⟨(QAAutomationBot.run_test env₁ url₁ acts₁ ⟨bot, [], 0⟩).1.bot, [], 0⟩).1.trace
        = t₂ ++ [Effect.contextClose, Effect.browserClose,
            Effect.writeReport (bot.result_dir ++ "/report.html")
              { title := "QA 자동화 보고서 - " ++ bot.timestamp
                summaryTimestamp := bot.timestamp
                summaryResultDir := bot.result_dir
                rows := (bot.report_logs ++ d₁) ++ d₂ }] := by
  obtain ⟨d₁, dt₁, ha₁, hb₁, ht₁⟩ := run_test_shape env₁ url₁ acts₁ ⟨bot, [], 0⟩
  obtain ⟨d₂, dt₂, ha₂, hb₂, ht₂⟩ := run_test_shape env₂ url₂ acts₂
    ⟨(QAAutomationBot.run_test env₁ url₁ acts₁ ⟨bot, [], 0⟩).1.bot, [], 0⟩
  refine ⟨d₁, d₂, dt₁, dt₂, hb₁, by simpa using ht₁, ?_, ?_⟩
  · rw [hb₂, hb₁]
  · rw [ht₂, hb₁]
    simp

end AutoQA
